import Mathlib

/-!
# Verification of the cryptobot-go client core

A shallow embedding of the `cryptobot` Go package: the webhook signature
verification protocol (`HandleUpdate`), the list-field marshaling of the
option/request structures, the validation functions, and the response
envelope dispatch shared by every API operation.  Go strings are modelled
as Lean `String`, Go `len` on a string as its UTF-8 byte size, `int64` as
`Int` (no arithmetic in the modelled code can overflow: the code only
compares and formats these values), byte slices as `List Nat`, and the
JSON / HTTP / hash collaborators as explicit function parameters, as the
code itself treats them as injected collaborators.
-/

set_option autoImplicit false

namespace Cryptobot

/-- Go `len(s)` on a string: the number of bytes of its UTF-8 encoding. -/
def golen (s : String) : Nat := s.utf8ByteSize

/-- Go `[]byte(s)`: the UTF-8 bytes of a string, as a list of byte values. -/
def goBytes (s : String) : List Nat := s.toUTF8.toList.map (fun b => b.toNat)

/-- Go `strconv.FormatInt(i, 10)`: decimal rendering with a leading minus
sign for negative values, which is exactly Lean's `toString` on `Int`. -/
def formatInt (i : Int) : String := toString i

/-- Go `strings.Join(elems, sep)`: the concatenation of the elements of
`elems`, with `sep` placed between consecutive elements; `""` on an empty
list, and the single element itself on a one-element list. -/
def stringsJoin (elems : List String) (sep : String) : String :=
  match elems with
  | [] => ""
  | e :: es => es.foldl (fun acc s => acc ++ sep ++ s) e

/-- A JSON scalar value as produced by `encoding/json` for the temp
structs of this package: every marshaled field is a string, an integer or
a boolean. -/
inductive JVal where
  | str (s : String)
  | int (i : Int)
  | bool (b : Bool)
  deriving DecidableEq

/-- The JSON object emitted for a struct: its fields in declaration
order, as key/value pairs. -/
abbrev JObj : Type := List (String × JVal)

/-- A string field carrying the `omitempty` tag: dropped from the object
when the value is the zero value `""`. -/
def omitStr (key s : String) : JObj :=
  if s = "" then [] else [(key, JVal.str s)]

/-- An `int64` field carrying the `omitempty` tag: dropped from the
object when the value is the zero value `0`. -/
def omitInt (key : String) (i : Int) : JObj :=
  if i = 0 then [] else [(key, JVal.int i)]

/-- A field without `omitempty`: always present. -/
def reqStr (key s : String) : JObj := [(key, JVal.str s)]

/-- A required boolean field: always present. -/
def reqBool (key : String) (b : Bool) : JObj := [(key, JVal.bool b)]

/-- A required `int64` field: always present. -/
def reqInt (key : String) (i : Int) : JObj := [(key, JVal.int i)]

/-! ## Option and request structures (transfer.go, invoice and check files) -/

/-- `TransferOptions` (transfer.go lines 62-77).  `CryptoAsset`,
`TransferStatus` and the other string enums of the package are plain Go
string types, modelled as `String`. -/
structure TransferOptions where
  CryptoAsset : String
  TransferIDs : List Int
  SpendID : String
  Offset : Int
  Count : Int
  deriving DecidableEq

/-- The `ids` slice built by `TransferOptions.MarshalJSON` (transfer.go
lines 88-92): `make([]string, len(topts.TransferIDs))` allocates a slice
already holding `len` empty strings, and the loop appends the formatted
ids after them. -/
def transferIDsSlice (ids : List Int) : List String :=
  ids.foldl (fun acc id => acc ++ [formatInt id]) (List.replicate ids.length "")

/-- The wire value of the `transfer_ids` field (transfer.go line 96). -/
def transferIDsWire (ids : List Int) : String := stringsJoin (transferIDsSlice ids) ","

/-- `TransferOptions.MarshalJSON` (transfer.go lines 87-101): the JSON
object of the `tempTrOps` struct, every field tagged `omitempty`. -/
def marshalTransferOptions (topts : TransferOptions) : JObj :=
  omitStr "asset" topts.CryptoAsset ++
  omitStr "transfer_ids" (transferIDsWire topts.TransferIDs) ++
  omitStr "spend_id" topts.SpendID ++
  omitInt "offset" topts.Offset ++
  omitInt "count" topts.Count

/-- `InvoiceOptions` (invoice file lines 287-305). -/
structure InvoiceOptions where
  CryptoAsset : String
  Fiat : String
  InvoiceIDs : List Int
  Status : String
  Offset : Int
  Count : Int
  deriving DecidableEq

/-- The `ids` slice built by `InvoiceOptions.MarshalJSON` (invoice file
lines 317-321): the same `make([]string, len)` followed by `append`. -/
def invoiceIDsSlice (ids : List Int) : List String :=
  ids.foldl (fun acc id => acc ++ [formatInt id]) (List.replicate ids.length "")

/-- The wire value of the `invoice_ids` field (invoice file line 326). -/
def invoiceIDsWire (ids : List Int) : String := stringsJoin (invoiceIDsSlice ids) ","

/-- `InvoiceOptions.MarshalJSON` (invoice file lines 316-331): the JSON
object of the `tempInOps` struct, every field tagged `omitempty`. -/
def marshalInvoiceOptions (no : InvoiceOptions) : JObj :=
  omitStr "asset" no.CryptoAsset ++
  omitStr "fiat" no.Fiat ++
  omitStr "invoice_ids" (invoiceIDsWire no.InvoiceIDs) ++
  omitStr "status" no.Status ++
  omitInt "offset" no.Offset ++
  omitInt "count" no.Count

/-- `CheckOptions` (check file lines 57-72). -/
structure CheckOptions where
  CryptoAsset : String
  CheckIDs : List Int
  Status : String
  Offset : Int
  Count : Int
  deriving DecidableEq

/-- The `ids` slice built by `CheckOptions.MarshalJSON` (check file lines
83-87): the same `make([]string, len)` followed by `append`. -/
def checkIDsSlice (ids : List Int) : List String :=
  ids.foldl (fun acc id => acc ++ [formatInt id]) (List.replicate ids.length "")

/-- The wire value of the `check_ids` field (check file line 91). -/
def checkIDsWire (ids : List Int) : String := stringsJoin (checkIDsSlice ids) ","

/-- `CheckOptions.MarshalJSON` (check file lines 82-96): the JSON object
of the `tempCheckOps` struct, every field tagged `omitempty`. -/
def marshalCheckOptions (co : CheckOptions) : JObj :=
  omitStr "asset" co.CryptoAsset ++
  omitStr "check_ids" (checkIDsWire co.CheckIDs) ++
  omitStr "status" co.Status ++
  omitInt "offset" co.Offset ++
  omitInt "count" co.Count

/-- `NewInvoice` (invoice file lines 206-245). -/
structure NewInvoice where
  CurrencyType : String
  CryptoAsset : String
  Fiat : String
  AcceptedCryptoAssets : List String
  Amount : String
  Description : String
  HiddenMessage : String
  PaidBtnName : String
  PaidBtnUrl : String
  Payload : String
  AllowComments : Bool
  AllowAnonymous : Bool
  ExpiresIn : Int
  deriving DecidableEq

/-- The `as` slice built by `NewInvoice.MarshalJSON` (invoice file lines
264-268): `var as []string` starts empty, the loop appends each asset. -/
def acceptedAssetsSlice (as : List String) : List String :=
  as.foldl (fun acc a => acc ++ [a]) []

/-- The wire value of the `accepted_assets` field (invoice file line 274). -/
def acceptedAssetsWire (as : List String) : String :=
  stringsJoin (acceptedAssetsSlice as) ","

/-- `NewInvoice.MarshalJSON` (invoice file lines 263-285): the JSON
object of the `tempNewInvoice` struct, field tags as declared on lines
247-261 (`currency_type`, `amount`, `allow_comments`, `allow_anonymous`
are required, the rest `omitempty`). -/
def marshalNewInvoice (in' : NewInvoice) : JObj :=
  reqStr "currency_type" in'.CurrencyType ++
  omitStr "asset" in'.CryptoAsset ++
  omitStr "fiat" in'.Fiat ++
  omitStr "accepted_assets" (acceptedAssetsWire in'.AcceptedCryptoAssets) ++
  reqStr "amount" in'.Amount ++
  omitStr "description" in'.Description ++
  omitStr "hidden_message" in'.HiddenMessage ++
  omitStr "paid_btn_name" in'.PaidBtnName ++
  omitStr "paid_btn_url" in'.PaidBtnUrl ++
  omitStr "payload" in'.Payload ++
  reqBool "allow_comments" in'.AllowComments ++
  reqBool "allow_anonymous" in'.AllowAnonymous ++
  omitInt "expires_in" in'.ExpiresIn

/-- `NewCheck` (check file lines 43-55). -/
structure NewCheck where
  CryptoAsset : String
  Amount : String
  PinToUserID : Int
  PinToUsername : String
  deriving DecidableEq

/-- `NewTransfer` (transfer.go lines 42-60). -/
structure NewTransfer where
  UserID : Int
  CryptoAsset : String
  Amount : String
  SpendID : String
  Comment : String
  DisableSendNotification : Bool
  deriving DecidableEq

/-- `json.Marshal` of a `NewCheck`: no custom marshaler, the struct tags
of check file lines 43-55 (`pin_to_user_id` and `pin_to_username` are
`omitempty`). -/
def marshalNewCheck (nc : NewCheck) : JObj :=
  reqStr "asset" nc.CryptoAsset ++
  reqStr "amount" nc.Amount ++
  omitInt "pin_to_user_id" nc.PinToUserID ++
  omitStr "pin_to_username" nc.PinToUsername

/-- `json.Marshal` of a `NewTransfer`: no custom marshaler, the struct
tags of transfer.go lines 42-60 (`comment` is `omitempty`). -/
def marshalNewTransfer (nt : NewTransfer) : JObj :=
  reqInt "user_id" nt.UserID ++
  reqStr "asset" nt.CryptoAsset ++
  reqStr "amount" nt.Amount ++
  reqStr "spend_id" nt.SpendID ++
  omitStr "comment" nt.Comment ++
  reqBool "disable_send_notification" nt.DisableSendNotification

/-! ## Validation functions

Each Go validator accumulates an `errs []error` slice, one `errors.New`
message per violated rule, and returns `nil` when the slice is empty and
`errors.Join(errs...)` otherwise.  `errors.Join` wraps the whole slice
into a single error whose message lists every component; we model the
returned error by the slice of component messages, `[]` standing for the
`nil` error.  The slice is built by conditional appends in source order,
written here as the concatenation of one conditional singleton per
rule. -/

/-- `validateNewInvoice` (invoice file lines 333-365): the `errs` slice
after the eight conditional appends, one message per violated rule, in
source order. -/
def validateNewInvoice (in' : NewInvoice) : List String :=
  (if golen in'.CurrencyType = 0 then
    ["CurrencyType cannot be empty"] else []) ++
  (if in'.CurrencyType = "crypto" ∧ golen in'.CryptoAsset = 0 then
    ["CryptoAsset cannot be empty"] else []) ++
  (if in'.CurrencyType = "fiat" ∧ in'.AcceptedCryptoAssets.length = 0 then
    ["AcceptedCryptoAssets cannot be empty"] else []) ++
  (if in'.CurrencyType = "fiat" ∧ golen in'.Fiat = 0 then
    ["FiatCurrency cannot be empty"] else []) ++
  (if golen in'.Amount = 0 then
    ["Amount cannot be empty"] else []) ++
  (if golen in'.PaidBtnName ≠ 0 ∧ golen in'.PaidBtnUrl = 0 then
    ["PaidBtnUrl cannot be empty"] else []) ++
  (if golen in'.Payload > 4096 then
    ["Payload should not exceed 4096 characters"] else []) ++
  (if in'.ExpiresIn ≠ 0 ∧ (in'.ExpiresIn < 1 ∨ in'.ExpiresIn > 2678400) then
    ["expiration time should be within 1-2678400 second range"] else [])

/-- `validateInvoiceOptions` (invoice file lines 367-381). -/
def validateInvoiceOptions (inop : InvoiceOptions) : List String :=
  (if inop.Offset < 0 then
    ["Offset cannot be less than 0"] else []) ++
  (if inop.Count ≠ 0 ∧ (inop.Count < 1 ∨ inop.Count > 1000) then
    ["Count needs to be within 1-1000 record range"] else [])

/-- `validateNewCheck` (check file lines 98-113). -/
def validateNewCheck (nc : NewCheck) : List String :=
  (if golen nc.CryptoAsset = 0 then
    ["CryptoAsset cannot be empty"] else []) ++
  (if golen nc.Amount = 0 then
    ["Amount cannot be empty"] else [])

/-- `validateCheckOptions` (check file lines 115-130). -/
def validateCheckOptions (ckops : CheckOptions) : List String :=
  (if ckops.Offset < 0 then
    ["Offset cannot be less than 0"] else []) ++
  (if ckops.Count ≠ 0 ∧ (ckops.Count < 1 ∨ ckops.Count > 1000) then
    ["Count needs to be within 1-1000 record range"] else [])

/-- `validateNewTransfer` (transfer.go lines 103-124). -/
def validateNewTransfer (nt : NewTransfer) : List String :=
  (if golen nt.CryptoAsset = 0 then
    ["CryptoAsset cannot be empty"] else []) ++
  (if golen nt.SpendID = 0 then
    ["SpendID cannot be empty"] else []) ++
  (if golen nt.SpendID > 64 then
    ["SpendID cannot exceed 64 characters"] else []) ++
  (if golen nt.Comment > 1024 then
    ["Comment cannot exceed 1024 characters"] else [])

/-- `validateTransferOptions` (transfer.go lines 126-144). -/
def validateTransferOptions (trops : TransferOptions) : List String :=
  (if golen trops.SpendID > 64 then
    ["SpendID cannot exceed 64 characters"] else []) ++
  (if trops.Offset < 0 then
    ["Offset cannot be less than 0"] else []) ++
  (if trops.Count ≠ 0 ∧ (trops.Count < 1 ∨ trops.Count > 1000) then
    ["Count needs to be within 1-1000 record range"] else [])

/-! ## Result record types and their Go zero values -/

/-- `Invoice` (invoice file lines 117-204). -/
structure Invoice where
  ID : Int
  Hash : String
  CurrencyType : String
  CryptoAsset : String
  AcceptedCryptoAssets : List String
  Fiat : String
  Amount : String
  PaidAsset : String
  PaidAmount : String
  PaidFiatRate : String
  FeeAsset : String
  FeeAmount : Int
  BotInvoiceURL : String
  MiniAppInvoiceURL : String
  WebAppInvoiceURL : String
  Description : String
  Status : String
  CreatedAt : String
  PaidUSDRate : String
  AllowComments : Bool
  AllowAnonymous : Bool
  ExpirationDate : String
  PaidAt : String
  PaidAnonymously : Bool
  Comment : String
  HiddenMessage : String
  Payload : String
  PaidBtnName : String
  PaidBtnUrl : String
  deriving DecidableEq

/-- The Go zero value `Invoice{}`: every field at its zero value (`0`
for integers, `""` for strings, `nil` for slices, `false` for booleans). -/
def Invoice.zero : Invoice :=
  ⟨0, "", "", "", [], "", "", "", "", "", "", 0, "", "", "", "", "", "",
   "", false, false, "", "", false, "", "", "", "", ""⟩

/-- `Check` (check file lines 17-41). -/
structure Check where
  ID : Int
  Hash : String
  CryptoAsset : String
  Amount : String
  BotCheckURL : String
  Status : String
  CreatedAt : String
  ActivatedAt : String
  deriving DecidableEq

/-- The Go zero value `Check{}`. -/
def Check.zero : Check := ⟨0, "", "", "", "", "", "", ""⟩

/-- `Transfer` (transfer.go lines 16-40). -/
structure Transfer where
  ID : Int
  SpendID : String
  UserID : Int
  CryptoAsset : String
  Amount : String
  Status : String
  CompletedAt : String
  Comment : String
  deriving DecidableEq

/-- The Go zero value `Transfer{}`. -/
def Transfer.zero : Transfer := ⟨0, "", 0, "", "", "", "", ""⟩

/-- `Balance` (balance file lines 3-12). -/
structure Balance where
  CryptoAsset : String
  Available : String
  OnHold : String
  deriving DecidableEq

/-- `ExchangeRate` (exchange-rate file lines 3-21). -/
structure ExchangeRate where
  IsValid : Bool
  IsCrypto : Bool
  IsFiat : Bool
  Source : String
  Target : String
  Rate : String
  deriving DecidableEq

/-- `AppStats` (appstats.go lines 8-29). -/
structure AppStats where
  Volume : Int
  Conversion : Int
  UniqueUsers : Int
  CreatedInvoices : Int
  PaidInvoices : Int
  StartAt : String
  EndAt : String
  deriving DecidableEq

/-- The Go zero value `AppStats{}`. -/
def AppStats.zero : AppStats := ⟨0, 0, 0, 0, 0, "", ""⟩

/-- `AppStatsOptions` (appstats.go lines 31-37); the `time.Time` fields
are represented by their RFC 3339 renderings, which is the only use the
code makes of them (appstats.go lines 39-47). -/
structure AppStatsOptions where
  StartAt : String
  EndAt : String
  deriving DecidableEq

/-- `Update` (update.go lines 9-19). -/
structure Update where
  ID : Int
  /-- The Go field is named `Type`, a reserved word in Lean. -/
  Type' : String
  RequestDate : String
  Payload : Invoice
  deriving DecidableEq

/-- The Go zero value `Update{}` returned on every `HandleUpdate` error
path: ID `0`, empty type, empty request date, zero `Invoice` payload. -/
def Update.zero : Update := ⟨0, "", "", Invoice.zero⟩

/-! ## Webhook verification (`HandleUpdate`, cryptobot.go lines 133-162)

The cryptographic primitives `sha256.Sum256` and HMAC-SHA256 and the
JSON decoder `json.Unmarshal` are collaborators, passed as function
parameters; the request is represented by the value the code extracts
from it: the result of `r.Header.Get("crypto-pay-api-signature")` (which
is `""` both when the header is absent and when it is set to the empty
string) and the result of `io.ReadAll(r.Body)` (the body bytes, or a
read error).  The error check after `h.Write(body)` is dead code in Go —
`hash.Hash.Write` is documented never to return an error — and is not
modelled. -/

/-- Byte slices `[]byte`, each element a byte value. -/
abbrev Bytes := List Nat

/-- One lowercase hexadecimal digit, as emitted by Go's `%x` verb. -/
def hexDigitChar (n : Nat) : Char :=
  if n < 10 then Char.ofNat (48 + n) else Char.ofNat (87 + n)

/-- Go `fmt.Sprintf("%x", bs)` on a byte slice: each byte as two
lowercase hexadecimal digits, high nibble first. -/
def hexOfBytes (bs : Bytes) : String :=
  ⟨(bs.map (fun b => [hexDigitChar (b / 16), hexDigitChar (b % 16)])).flatten⟩

/-- The error returned by `HandleUpdate`, tagged by the return site. -/
inductive UpdateError where
  /-- `errors.New("crypto-pay-api-signature header was not found")`,
  cryptobot.go line 136. -/
  | sigMissing
  /-- `fmt.Errorf("failed to read the update body: %w", err)`,
  cryptobot.go line 141; carries the wrapped read error's message. -/
  | bodyRead (e : String)
  /-- `errors.New("failed to verify the update")`, cryptobot.go line 152. -/
  | sigMismatch
  /-- `fmt.Errorf("failed to unmarshal the update: %w", err)`,
  cryptobot.go line 158; carries the wrapped decode error's message. -/
  | unmarshal (e : String)
  deriving DecidableEq

/-- `HandleUpdate` (cryptobot.go lines 133-162), returning the Go pair
`(Update, error)` with `none` for the `nil` error.

* `sha256` models `sha256.Sum256`, `hmacSha256 key msg` the digest of
  `hmac.New(sha256.New, key)` after writing `msg`;
* `token` is `cb.token`;
* `sig` is `r.Header.Get("crypto-pay-api-signature")`;
* `bodyResult` is the outcome of `io.ReadAll(r.Body)`;
* `unmarshalUpdate` models `json.Unmarshal` into an `Update`. -/
def HandleUpdate (sha256 : Bytes → Bytes) (hmacSha256 : Bytes → Bytes → Bytes)
    (unmarshalUpdate : Bytes → Except String Update)
    (token : String) (sig : String) (bodyResult : Except String Bytes) :
    Update × Option UpdateError :=
  if golen sig = 0 then
    (Update.zero, some UpdateError.sigMissing)
  else
    match bodyResult with
    | Except.error e => (Update.zero, some (UpdateError.bodyRead e))
    | Except.ok body =>
      let hkey := sha256 (goBytes token)
      if sig ≠ hexOfBytes (hmacSha256 hkey body) then
        (Update.zero, some UpdateError.sigMismatch)
      else
        match unmarshalUpdate body with
        | Except.error e => (Update.zero, some (UpdateError.unmarshal e))
        | Except.ok u => (u, none)

/-! ## API operations (cryptobot.go lines 164-531)

Every operation follows the same shape: run the validator when the
request kind has one, join the endpoint with the method path, marshal
the request body, send it through `makeRequest`, decode the response
bytes into the `response[T]` envelope, and dispatch on `Ok`.  The HTTP
transport and the JSON envelope decoder are collaborators, passed as
function parameters.  Besides the Go return pair `(T, error)` the model
records the serialized request body (`none` when serialization was never
reached) and the number of transport invocations, so that the
short-circuit behaviour of validation is visible in the result. -/

/-- The `response[T]` envelope (cryptobot.go lines 30-34); `Error` is a
`json.RawMessage`, raw bytes kept verbatim, modelled as a string. -/
structure response (T : Type) where
  Ok : Bool
  Error : String
  Result : T

/-- The error returned by an API operation, tagged by the return site. -/
inductive OpError where
  /-- A non-`nil` validator result: `errors.Join` of the messages. -/
  | validation (msgs : List String)
  /-- A `makeRequest` failure (request construction, `client.Do`, or
  reading the response body). -/
  | transport (e : String)
  /-- `json.Unmarshal` of the envelope failed. -/
  | decode (e : String)
  /-- `errors.New(string(res.Error))`: the envelope decoded with `Ok`
  false, and the raw `error` payload is carried verbatim. -/
  | api (payload : String)
  deriving DecidableEq

/-- The HTTP transport collaborator, standing for `makeRequest`
(cryptobot.go lines 110-131): method, URL and optional body in, raw
response body bytes (modelled as a string) or a failure out. -/
def Transport : Type := String → String → Option JObj → Except String String

/-- An envelope decoder collaborator: `json.Unmarshal` of raw response
bytes into `response[T]`. -/
def EnvDecoder (T : Type) : Type := String → Except String (response T)

/-- The observable outcome of one operation call: the Go return pair
(`value` is the zero value of the result type whenever `error` is
non-`none`), the serialized request body if serialization was reached,
and the number of transport invocations. -/
structure OpTrace (T : Type) where
  value : T
  error : Option OpError
  serialized : Option JObj
  networkCalls : Nat

/-- `url.JoinPath(base, path)` for the well-formed constant inputs the
code uses (a valid base URL without trailing slash, a path starting with
`/`): plain concatenation, and no error. -/
def urlJoinPath (base path : String) : String := base ++ path

/-- The `{items: [...]}` carrier for invoice lists (cryptobot.go lines
273-275). -/
structure InvoiceItems where
  Items : List Invoice

/-- The `{items: [...]}` carrier for check lists (cryptobot.go lines
373-375). -/
structure CheckItems where
  Items : List Check

/-- The `{items: [...]}` carrier for transfer lists (cryptobot.go lines
441-443). -/
structure TransferItems where
  Items : List Transfer

/-- The body of `DeleteInvoice` (cryptobot.go lines 227-229). -/
def marshalDeleteInvoice (id : Int) : JObj := [("invoice_id", JVal.int id)]

/-- The body of `DeleteCheck` (cryptobot.go lines 327-329). -/
def marshalDeleteCheck (id : Int) : JObj := [("check_id", JVal.int id)]

/-- `AppStatsOptions.MarshalJSON` (appstats.go lines 39-47): both
formatted times, no `omitempty`. -/
def marshalAppStatsOptions (aso : AppStatsOptions) : JObj :=
  reqStr "start_at" aso.StartAt ++ reqStr "end_at" aso.EndAt

/-- `GetMe` (cryptobot.go lines 164-186); the result is the raw
`json.RawMessage`, whose `nil` zero value is modelled as `""`. -/
def GetMe (d : EnvDecoder String) (t : Transport) (endpoint : String) :
    OpTrace String :=
  match t "GET" (urlJoinPath endpoint "/getMe") none with
  | Except.error e => ⟨"", some (OpError.transport e), none, 1⟩
  | Except.ok body =>
    match d body with
    | Except.error e => ⟨"", some (OpError.decode e), none, 1⟩
    | Except.ok res =>
      if !res.Ok then ⟨"", some (OpError.api res.Error), none, 1⟩
      else ⟨res.Result, none, none, 1⟩

/-- `CreateInvoice` (cryptobot.go lines 188-219). -/
def CreateInvoice (d : EnvDecoder Invoice) (t : Transport) (endpoint : String)
    (in' : NewInvoice) : OpTrace Invoice :=
  match validateNewInvoice in' with
  | e :: es => ⟨Invoice.zero, some (OpError.validation (e :: es)), none, 0⟩
  | [] =>
    let data := marshalNewInvoice in'
    match t "GET" (urlJoinPath endpoint "/createInvoice") (some data) with
    | Except.error e => ⟨Invoice.zero, some (OpError.transport e), some data, 1⟩
    | Except.ok body =>
      match d body with
      | Except.error e => ⟨Invoice.zero, some (OpError.decode e), some data, 1⟩
      | Except.ok res =>
        if !res.Ok then ⟨Invoice.zero, some (OpError.api res.Error), some data, 1⟩
        else ⟨res.Result, none, some data, 1⟩

/-- `DeleteInvoice` (cryptobot.go lines 221-251). -/
def DeleteInvoice (d : EnvDecoder Bool) (t : Transport) (endpoint : String)
    (id : Int) : OpTrace Bool :=
  let data := marshalDeleteInvoice id
  match t "POST" (urlJoinPath endpoint "/deleteInvoice") (some data) with
  | Except.error e => ⟨false, some (OpError.transport e), some data, 1⟩
  | Except.ok body =>
    match d body with
    | Except.error e => ⟨false, some (OpError.decode e), some data, 1⟩
    | Except.ok res =>
      if !res.Ok then ⟨false, some (OpError.api res.Error), some data, 1⟩
      else ⟨res.Result, none, some data, 1⟩

/-- `GetInvoices` (cryptobot.go lines 253-286). -/
def GetInvoices (d : EnvDecoder InvoiceItems) (t : Transport) (endpoint : String)
    (inop : InvoiceOptions) : OpTrace (List Invoice) :=
  match validateInvoiceOptions inop with
  | e :: es => ⟨[], some (OpError.validation (e :: es)), none, 0⟩
  | [] =>
    let data := marshalInvoiceOptions inop
    match t "POST" (urlJoinPath endpoint "/getInvoices") (some data) with
    | Except.error e => ⟨[], some (OpError.transport e), some data, 1⟩
    | Except.ok body =>
      match d body with
      | Except.error e => ⟨[], some (OpError.decode e), some data, 1⟩
      | Except.ok res =>
        if !res.Ok then ⟨[], some (OpError.api res.Error), some data, 1⟩
        else ⟨res.Result.Items, none, some data, 1⟩

/-- `CreateCheck` (cryptobot.go lines 288-319). -/
def CreateCheck (d : EnvDecoder Check) (t : Transport) (endpoint : String)
    (nc : NewCheck) : OpTrace Check :=
  match validateNewCheck nc with
  | e :: es => ⟨Check.zero, some (OpError.validation (e :: es)), none, 0⟩
  | [] =>
    let data := marshalNewCheck nc
    match t "GET" (urlJoinPath endpoint "/createCheck") (some data) with
    | Except.error e => ⟨Check.zero, some (OpError.transport e), some data, 1⟩
    | Except.ok body =>
      match d body with
      | Except.error e => ⟨Check.zero, some (OpError.decode e), some data, 1⟩
      | Except.ok res =>
        if !res.Ok then ⟨Check.zero, some (OpError.api res.Error), some data, 1⟩
        else ⟨res.Result, none, some data, 1⟩

/-- `DeleteCheck` (cryptobot.go lines 321-351). -/
def DeleteCheck (d : EnvDecoder Bool) (t : Transport) (endpoint : String)
    (id : Int) : OpTrace Bool :=
  let data := marshalDeleteCheck id
  match t "POST" (urlJoinPath endpoint "/deleteCheck") (some data) with
  | Except.error e => ⟨false, some (OpError.transport e), some data, 1⟩
  | Except.ok body =>
    match d body with
    | Except.error e => ⟨false, some (OpError.decode e), some data, 1⟩
    | Except.ok res =>
      if !res.Ok then ⟨false, some (OpError.api res.Error), some data, 1⟩
      else ⟨res.Result, none, some data, 1⟩

/-- `GetChecks` (cryptobot.go lines 353-386). -/
def GetChecks (d : EnvDecoder CheckItems) (t : Transport) (endpoint : String)
    (ckops : CheckOptions) : OpTrace (List Check) :=
  match validateCheckOptions ckops with
  | e :: es => ⟨[], some (OpError.validation (e :: es)), none, 0⟩
  | [] =>
    let data := marshalCheckOptions ckops
    match t "POST" (urlJoinPath endpoint "/getChecks") (some data) with
    | Except.error e => ⟨[], some (OpError.transport e), some data, 1⟩
    | Except.ok body =>
      match d body with
      | Except.error e => ⟨[], some (OpError.decode e), some data, 1⟩
      | Except.ok res =>
        if !res.Ok then ⟨[], some (OpError.api res.Error), some data, 1⟩
        else ⟨res.Result.Items, none, some data, 1⟩

/-- `CreateTransfer` (cryptobot.go lines 388-419). -/
def CreateTransfer (d : EnvDecoder Transfer) (t : Transport) (endpoint : String)
    (nt : NewTransfer) : OpTrace Transfer :=
  match validateNewTransfer nt with
  | e :: es => ⟨Transfer.zero, some (OpError.validation (e :: es)), none, 0⟩
  | [] =>
    let data := marshalNewTransfer nt
    match t "GET" (urlJoinPath endpoint "/transfer") (some data) with
    | Except.error e => ⟨Transfer.zero, some (OpError.transport e), some data, 1⟩
    | Except.ok body =>
      match d body with
      | Except.error e => ⟨Transfer.zero, some (OpError.decode e), some data, 1⟩
      | Except.ok res =>
        if !res.Ok then ⟨Transfer.zero, some (OpError.api res.Error), some data, 1⟩
        else ⟨res.Result, none, some data, 1⟩

/-- `GetTransfers` (cryptobot.go lines 421-454). -/
def GetTransfers (d : EnvDecoder TransferItems) (t : Transport) (endpoint : String)
    (trops : TransferOptions) : OpTrace (List Transfer) :=
  match validateTransferOptions trops with
  | e :: es => ⟨[], some (OpError.validation (e :: es)), none, 0⟩
  | [] =>
    let data := marshalTransferOptions trops
    match t "POST" (urlJoinPath endpoint "/getTransfers") (some data) with
    | Except.error e => ⟨[], some (OpError.transport e), some data, 1⟩
    | Except.ok body =>
      match d body with
      | Except.error e => ⟨[], some (OpError.decode e), some data, 1⟩
      | Except.ok res =>
        if !res.Ok then ⟨[], some (OpError.api res.Error), some data, 1⟩
        else ⟨res.Result.Items, none, some data, 1⟩

/-- `GetBalance` (cryptobot.go lines 456-478). -/
def GetBalance (d : EnvDecoder (List Balance)) (t : Transport) (endpoint : String) :
    OpTrace (List Balance) :=
  match t "GET" (urlJoinPath endpoint "/getBalance") none with
  | Except.error e => ⟨[], some (OpError.transport e), none, 1⟩
  | Except.ok body =>
    match d body with
    | Except.error e => ⟨[], some (OpError.decode e), none, 1⟩
    | Except.ok res =>
      if !res.Ok then ⟨[], some (OpError.api res.Error), none, 1⟩
      else ⟨res.Result, none, none, 1⟩

/-- `GetExchangeRates` (cryptobot.go lines 480-502). -/
def GetExchangeRates (d : EnvDecoder (List ExchangeRate)) (t : Transport)
    (endpoint : String) : OpTrace (List ExchangeRate) :=
  match t "GET" (urlJoinPath endpoint "/getExchangeRates") none with
  | Except.error e => ⟨[], some (OpError.transport e), none, 1⟩
  | Except.ok body =>
    match d body with
    | Except.error e => ⟨[], some (OpError.decode e), none, 1⟩
    | Except.ok res =>
      if !res.Ok then ⟨[], some (OpError.api res.Error), none, 1⟩
      else ⟨res.Result, none, none, 1⟩

/-- `GetAppStats` (cryptobot.go lines 504-531). -/
def GetAppStats (d : EnvDecoder AppStats) (t : Transport) (endpoint : String)
    (asops : AppStatsOptions) : OpTrace AppStats :=
  let data := marshalAppStatsOptions asops
  match t "POST" (urlJoinPath endpoint "/getStats") (some data) with
  | Except.error e => ⟨AppStats.zero, some (OpError.transport e), some data, 1⟩
  | Except.ok body =>
    match d body with
    | Except.error e => ⟨AppStats.zero, some (OpError.decode e), some data, 1⟩
    | Except.ok res =>
      if !res.Ok then ⟨AppStats.zero, some (OpError.api res.Error), some data, 1⟩
      else ⟨res.Result, none, some data, 1⟩

/-! ## Helper lemmas -/

lemma golen_eq_zero_iff (s : String) : golen s = 0 ↔ s = "" := by
  unfold golen
  constructor
  · intro h
    cases s with
    | mk data =>
      cases data with
      | nil => rfl
      | cons c cs =>
        exfalso
        have hpos : 0 < c.utf8Size := c.utf8Size_pos
        have hgo : String.utf8ByteSize ⟨c :: cs⟩ =
            String.utf8ByteSize.go cs + c.utf8Size := rfl
        rw [hgo] at h
        omega
  · intro h
    subst h
    rfl

lemma hexOfBytes_length (bs : Bytes) : (hexOfBytes bs).length = 2 * bs.length := by
  induction bs with
  | nil => rfl
  | cons b tl ih =>
    simp [hexOfBytes, String.length] at ih ⊢
    omega

lemma hexOfBytes_ne_empty {bs : Bytes} (h : bs ≠ []) : hexOfBytes bs ≠ "" := by
  intro hc
  apply h
  have hlen := congrArg String.length hc
  rw [hexOfBytes_length] at hlen
  have : bs.length = 0 := by
    have : String.length "" = 0 := rfl
    omega
  exact List.length_eq_zero.mp this

lemma omitStr_empty (k : String) : omitStr k "" = [] := by
  simp [omitStr]

lemma key_notMem_omitStr {key k : String} {v : String} (h : ¬ key = k) :
    key ∉ (omitStr k v).map Prod.fst := by
  unfold omitStr
  split <;> simp [h]

lemma key_notMem_omitInt {key k : String} {i : Int} (h : ¬ key = k) :
    key ∉ (omitInt k i).map Prod.fst := by
  unfold omitInt
  split <;> simp [h]

lemma key_notMem_reqStr {key k : String} {v : String} (h : ¬ key = k) :
    key ∉ (reqStr k v).map Prod.fst := by
  simp [reqStr, h]

lemma key_notMem_reqBool {key k : String} {b : Bool} (h : ¬ key = k) :
    key ∉ (reqBool k b).map Prod.fst := by
  simp [reqBool, h]

lemma golen_replicate_a (n : Nat) : golen (String.mk (List.replicate n 'a')) = n := by
  induction n with
  | zero => rfl
  | succ k ih =>
    have hstep : golen (String.mk (List.replicate (k + 1) 'a')) =
        golen (String.mk (List.replicate k 'a')) + 'a'.utf8Size := rfl
    have hone : 'a'.utf8Size = 1 := by decide
    rw [hstep, ih, hone]

/-! ## Claim theorems -/

/-- C1: for every credential token and body, a
`crypto-pay-api-signature` header equal to the lowercase hexadecimal
encoding of HMAC-SHA256 keyed by SHA256(token) over the body bytes is
accepted, and `HandleUpdate` returns the `Update` obtained by
JSON-decoding the body; any other header value yields a
signature-verification error (the missing-header error when the value is
empty, the mismatch error otherwise), never an accepted update.  The
hypothesis `hlen` records that an HMAC-SHA256 digest is 32 bytes. -/
theorem handleUpdate_signature_decides (sha256 : Bytes → Bytes)
    (hmacSha256 : Bytes → Bytes → Bytes) (unm : Bytes → Except String Update)
    (token : String) (B : Bytes) (sig : String)
    (hlen : (hmacSha256 (sha256 (goBytes token)) B).length = 32) :
    (∀ u : Update, sig = hexOfBytes (hmacSha256 (sha256 (goBytes token)) B) →
      unm B = Except.ok u →
      HandleUpdate sha256 hmacSha256 unm token sig (Except.ok B) = (u, none)) ∧
    (sig ≠ hexOfBytes (hmacSha256 (sha256 (goBytes token)) B) →
      ∃ e, HandleUpdate sha256 hmacSha256 unm token sig (Except.ok B) =
          (Update.zero, some e) ∧
        (e = UpdateError.sigMissing ∨ e = UpdateError.sigMismatch)) := by
  constructor
  · intro u hsig hu
    subst hsig
    have hne : hexOfBytes (hmacSha256 (sha256 (goBytes token)) B) ≠ "" := by
      apply hexOfBytes_ne_empty
      intro hnil
      rw [hnil] at hlen
      simp at hlen
    have hg : ¬ golen (hexOfBytes (hmacSha256 (sha256 (goBytes token)) B)) = 0 :=
      fun h => hne ((golen_eq_zero_iff _).mp h)
    simp [HandleUpdate, hg, hu]
  · intro hsig
    by_cases hg : golen sig = 0
    · exact ⟨UpdateError.sigMissing, by simp [HandleUpdate, hg], Or.inl rfl⟩
    · exact ⟨UpdateError.sigMismatch, by simp [HandleUpdate, hg, hsig], Or.inr rfl⟩

/-- Concrete instantiation for C1: a 32-byte digest is accepted when the
header matches its hexadecimal form, and a wrong header is rejected. -/
theorem handleUpdate_signature_decides_witness :
    HandleUpdate (fun _ => []) (fun _ _ => List.replicate 32 0)
      (fun _ => Except.ok Update.zero) "token"
      (hexOfBytes (List.replicate 32 0)) (Except.ok [1, 2]) = (Update.zero, none) ∧
    ∃ e, HandleUpdate (fun _ => []) (fun _ _ => List.replicate 32 0)
        (fun _ => Except.ok Update.zero) "token" "bad" (Except.ok [1, 2]) =
        (Update.zero, some e) ∧
      (e = UpdateError.sigMissing ∨ e = UpdateError.sigMismatch) :=
  ⟨(handleUpdate_signature_decides (fun _ => []) (fun _ _ => List.replicate 32 0)
      (fun _ => Except.ok Update.zero) "token" [1, 2]
      (hexOfBytes (List.replicate 32 0)) (by decide)).1 Update.zero rfl rfl,
   (handleUpdate_signature_decides (fun _ => []) (fun _ _ => List.replicate 32 0)
      (fun _ => Except.ok Update.zero) "token" [1, 2] "bad" (by decide)).2 (by decide)⟩

/-- C2 (counter-evidence): the ID-list marshalers of `TransferOptions`,
`InvoiceOptions` and `CheckOptions` allocate the `ids` slice with
`make([]string, len(...))` and then `append`, so the joined wire field
carries one leading empty token per id (`[5]` encodes to `",5"`, `[1,2]`
to `",,1,2"`), while the `NewInvoice` accepted-assets marshaler starts
from an empty slice and encodes `["USDT","TON"]` correctly as
`"USDT,TON"` — the four request kinds do not encode lists identically,
and three of them emit leading commas. -/
theorem listField_leading_comma_bug :
    transferIDsWire [5] = ",5" ∧ transferIDsWire [5] ≠ "5" ∧
    invoiceIDsWire [7] = ",7" ∧ checkIDsWire [9] = ",9" ∧
    transferIDsWire [1, 2] = ",,1,2" ∧
    acceptedAssetsWire ["USDT", "TON"] = "USDT,TON" := by
  decide

/-- C3: when the `crypto-pay-api-signature` header is absent or empty
(`Header.Get` yields `""` in both cases), `HandleUpdate` returns the
missing-signature error with the zero `Update`, and its result does not
depend on the body-read outcome in any way — the body is not read. -/
theorem missing_signature_short_circuits (sha256 : Bytes → Bytes)
    (hmacSha256 : Bytes → Bytes → Bytes) (unm : Bytes → Except String Update)
    (token : String) (b1 b2 : Except String Bytes) :
    HandleUpdate sha256 hmacSha256 unm token "" b1 =
      (Update.zero, some UpdateError.sigMissing) ∧
    HandleUpdate sha256 hmacSha256 unm token "" b1 =
      HandleUpdate sha256 hmacSha256 unm token "" b2 := by
  constructor <;> simp [HandleUpdate, show golen "" = 0 from rfl]

/-- C4: `HandleUpdate` attempts JSON deserialization only after the MAC
comparison succeeds: on mismatch it returns the verification-failure
error and its result is independent of the unmarshal collaborator (the
body is never parsed), and a decode failure after a successful match is
returned as the distinct unparseable-update error, which is not equal to
either signature error. -/
theorem unmarshal_only_after_mac (sha256 : Bytes → Bytes)
    (hmacSha256 : Bytes → Bytes → Bytes)
    (unm unm' : Bytes → Except String Update)
    (token sig : String) (B : Bytes) (hne : sig ≠ "") :
    (sig ≠ hexOfBytes (hmacSha256 (sha256 (goBytes token)) B) →
      HandleUpdate sha256 hmacSha256 unm token sig (Except.ok B) =
        (Update.zero, some UpdateError.sigMismatch) ∧
      HandleUpdate sha256 hmacSha256 unm token sig (Except.ok B) =
        HandleUpdate sha256 hmacSha256 unm' token sig (Except.ok B)) ∧
    (sig = hexOfBytes (hmacSha256 (sha256 (goBytes token)) B) →
      ∀ e : String, unm B = Except.error e →
        HandleUpdate sha256 hmacSha256 unm token sig (Except.ok B) =
          (Update.zero, some (UpdateError.unmarshal e)) ∧
        UpdateError.unmarshal e ≠ UpdateError.sigMismatch ∧
        UpdateError.unmarshal e ≠ UpdateError.sigMissing) := by
  have hg : ¬ golen sig = 0 := fun h => hne ((golen_eq_zero_iff sig).mp h)
  constructor
  · intro hsig
    constructor <;> simp [HandleUpdate, hg, hsig]
  · intro hsig e hu
    subst hsig
    refine ⟨by simp [HandleUpdate, hg, hu], by simp, by simp⟩

/-- Concrete instantiation for C4: a mismatching header is rejected with
the mismatch error, and a matching header with an undecodable body
yields the unparseable-update error. -/
theorem unmarshal_only_after_mac_witness :
    (HandleUpdate (fun _ => []) (fun _ _ => [0]) (fun _ => Except.ok Update.zero)
      "token" "bad" (Except.ok [1]) = (Update.zero, some UpdateError.sigMismatch)) ∧
    (HandleUpdate (fun _ => []) (fun _ _ => [0]) (fun _ => Except.error "broken")
        "token" "00" (Except.ok [1]) =
      (Update.zero, some (UpdateError.unmarshal "broken"))) :=
  ⟨((unmarshal_only_after_mac (fun _ => []) (fun _ _ => [0])
      (fun _ => Except.ok Update.zero) (fun _ => Except.ok Update.zero)
      "token" "bad" [1] (by decide)).1 (by decide)).1,
   ((unmarshal_only_after_mac (fun _ => []) (fun _ _ => [0])
      (fun _ => Except.error "broken") (fun _ => Except.error "broken")
      "token" "00" [1] (by decide)).2 (by decide) "broken" rfl).1⟩

/-- C10: whenever `HandleUpdate` returns a non-`nil` error — missing
signature header, body-read failure, MAC mismatch, or unmarshal failure —
the `Update` value returned alongside it is exactly the zero `Update`. -/
theorem error_paths_return_zero_update (sha256 : Bytes → Bytes)
    (hmacSha256 : Bytes → Bytes → Bytes) (unm : Bytes → Except String Update)
    (token sig : String) (bodyResult : Except String Bytes) :
    ∀ e : UpdateError,
      (HandleUpdate sha256 hmacSha256 unm token sig bodyResult).2 = some e →
      (HandleUpdate sha256 hmacSha256 unm token sig bodyResult).1 = Update.zero := by
  intro e
  by_cases hg : golen sig = 0
  · simp [HandleUpdate, hg]
  · cases bodyResult with
    | error e2 => simp [HandleUpdate, hg]
    | ok body =>
      by_cases hs : sig = hexOfBytes (hmacSha256 (sha256 (goBytes token)) body)
      · subst hs
        cases hu : unm body with
        | error e3 => simp [HandleUpdate, hg, hu]
        | ok u => simp [HandleUpdate, hg, hu]
      · simp [HandleUpdate, hg, hs]

/-- Concrete instantiation for C10 on the missing-header path. -/
theorem error_paths_return_zero_update_witness :
    (HandleUpdate (fun _ => []) (fun _ _ => [0])
      (fun _ => Except.ok Update.zero) "token" "" (Except.ok [])).1 = Update.zero :=
  error_paths_return_zero_update (fun _ => []) (fun _ _ => [0])
    (fun _ => Except.ok Update.zero) "token" "" (Except.ok [])
    UpdateError.sigMissing (by decide)

/-- C8: an empty ID or asset list encodes to the empty string, and since
each of the four list-valued wire fields is tagged `omitempty`, the
emitted JSON object contains no such key at all — for any values of the
remaining fields. -/
theorem empty_list_fields_omitted
    (topts : TransferOptions) (h1 : topts.TransferIDs = [])
    (nopts : InvoiceOptions) (h2 : nopts.InvoiceIDs = [])
    (copts : CheckOptions) (h3 : copts.CheckIDs = [])
    (inv : NewInvoice) (h4 : inv.AcceptedCryptoAssets = []) :
    "transfer_ids" ∉ (marshalTransferOptions topts).map Prod.fst ∧
    "invoice_ids" ∉ (marshalInvoiceOptions nopts).map Prod.fst ∧
    "check_ids" ∉ (marshalCheckOptions copts).map Prod.fst ∧
    "accepted_assets" ∉ (marshalNewInvoice inv).map Prod.fst := by
  refine ⟨?_, ?_, ?_, ?_⟩
  · simp only [marshalTransferOptions, h1, transferIDsWire, transferIDsSlice,
      List.length_nil, List.replicate, List.foldl_nil, stringsJoin, omitStr_empty,
      List.append_nil, List.nil_append, List.map_append, List.mem_append, not_or,
      and_assoc]
    exact ⟨key_notMem_omitStr (by decide), key_notMem_omitStr (by decide),
      key_notMem_omitInt (by decide), key_notMem_omitInt (by decide)⟩
  · simp only [marshalInvoiceOptions, h2, invoiceIDsWire, invoiceIDsSlice,
      List.length_nil, List.replicate, List.foldl_nil, stringsJoin, omitStr_empty,
      List.append_nil, List.nil_append, List.map_append, List.mem_append, not_or,
      and_assoc]
    exact ⟨key_notMem_omitStr (by decide), key_notMem_omitStr (by decide),
      key_notMem_omitStr (by decide), key_notMem_omitInt (by decide),
      key_notMem_omitInt (by decide)⟩
  · simp only [marshalCheckOptions, h3, checkIDsWire, checkIDsSlice,
      List.length_nil, List.replicate, List.foldl_nil, stringsJoin, omitStr_empty,
      List.append_nil, List.nil_append, List.map_append, List.mem_append, not_or,
      and_assoc]
    exact ⟨key_notMem_omitStr (by decide), key_notMem_omitStr (by decide),
      key_notMem_omitInt (by decide), key_notMem_omitInt (by decide)⟩
  · simp only [marshalNewInvoice, h4, acceptedAssetsWire, acceptedAssetsSlice,
      List.foldl_nil, stringsJoin, omitStr_empty, List.append_nil, List.nil_append,
      List.map_append, List.mem_append, not_or, and_assoc]
    exact ⟨key_notMem_reqStr (by decide), key_notMem_omitStr (by decide),
      key_notMem_omitStr (by decide), key_notMem_reqStr (by decide),
      key_notMem_omitStr (by decide), key_notMem_omitStr (by decide),
      key_notMem_omitStr (by decide), key_notMem_omitStr (by decide),
      key_notMem_omitStr (by decide), key_notMem_reqBool (by decide),
      key_notMem_reqBool (by decide), key_notMem_omitInt (by decide)⟩

/-- Concrete instantiation for C8 on all four request kinds. -/
theorem empty_list_fields_omitted_witness :
    "transfer_ids" ∉ (marshalTransferOptions ⟨"TON", [], "sid", 3, 4⟩).map Prod.fst ∧
    "invoice_ids" ∉ (marshalInvoiceOptions ⟨"TON", "USD", [], "paid", 3, 4⟩).map Prod.fst ∧
    "check_ids" ∉ (marshalCheckOptions ⟨"TON", [], "active", 3, 4⟩).map Prod.fst ∧
    "accepted_assets" ∉
      (marshalNewInvoice ⟨"crypto", "TON", "", [], "5", "", "", "", "", "", true, false,
        0⟩).map Prod.fst :=
  empty_list_fields_omitted ⟨"TON", [], "sid", 3, 4⟩ rfl
    ⟨"TON", "USD", [], "paid", 3, 4⟩ rfl ⟨"TON", [], "active", 3, 4⟩ rfl
    ⟨"crypto", "TON", "", [], "5", "", "", "", "", "", true, false, 0⟩ rfl

/-- C6: a request violating several validation rules at once gets every
violated rule reported in the single returned error, not just the first:
a `NewInvoice` with empty `CurrencyType`, empty `Amount` and a `Payload`
over 4096 characters gets all three messages, and a `NewTransfer` with
empty `CryptoAsset` and a `Comment` over 1024 characters gets both. -/
theorem validation_aggregates_all_violations (inv : NewInvoice) (nt : NewTransfer)
    (h1 : golen inv.CurrencyType = 0) (h2 : golen inv.Amount = 0)
    (h3 : 4096 < golen inv.Payload)
    (h4 : golen nt.CryptoAsset = 0) (h5 : 1024 < golen nt.Comment) :
    ("CurrencyType cannot be empty" ∈ validateNewInvoice inv ∧
     "Amount cannot be empty" ∈ validateNewInvoice inv ∧
     "Payload should not exceed 4096 characters" ∈ validateNewInvoice inv) ∧
    ("CryptoAsset cannot be empty" ∈ validateNewTransfer nt ∧
     "Comment cannot exceed 1024 characters" ∈ validateNewTransfer nt) := by
  refine ⟨⟨?_, ?_, ?_⟩, ?_, ?_⟩
  · simp only [validateNewInvoice, List.append_assoc]
    exact List.mem_append_left _ (by rw [if_pos h1]; exact List.mem_singleton_self _)
  · simp only [validateNewInvoice, List.append_assoc]
    refine List.mem_append_right _ (List.mem_append_right _ (List.mem_append_right _
      (List.mem_append_right _ (List.mem_append_left _ ?_))))
    rw [if_pos h2]
    exact List.mem_singleton_self _
  · simp only [validateNewInvoice, List.append_assoc]
    refine List.mem_append_right _ (List.mem_append_right _ (List.mem_append_right _
      (List.mem_append_right _ (List.mem_append_right _ (List.mem_append_right _
        (List.mem_append_left _ ?_))))))
    rw [if_pos h3]
    exact List.mem_singleton_self _
  · simp only [validateNewTransfer, List.append_assoc]
    exact List.mem_append_left _ (by rw [if_pos h4]; exact List.mem_singleton_self _)
  · simp only [validateNewTransfer, List.append_assoc]
    refine List.mem_append_right _ (List.mem_append_right _
      (List.mem_append_right _ ?_))
    rw [if_pos h5]
    exact List.mem_singleton_self _

/-- Concrete instantiation for C6 with a 4097-character payload and a
1025-character comment. -/
theorem validation_aggregates_all_violations_witness :
    ("CurrencyType cannot be empty" ∈ validateNewInvoice
        ⟨"", "", "", [], "", "", "", "", "", String.mk (List.replicate 4097 'a'),
          true, true, 0⟩ ∧
     "Amount cannot be empty" ∈ validateNewInvoice
        ⟨"", "", "", [], "", "", "", "", "", String.mk (List.replicate 4097 'a'),
          true, true, 0⟩ ∧
     "Payload should not exceed 4096 characters" ∈ validateNewInvoice
        ⟨"", "", "", [], "", "", "", "", "", String.mk (List.replicate 4097 'a'),
          true, true, 0⟩) ∧
    ("CryptoAsset cannot be empty" ∈ validateNewTransfer
        ⟨1, "", "5", "sid", String.mk (List.replicate 1025 'a'), false⟩ ∧
     "Comment cannot exceed 1024 characters" ∈ validateNewTransfer
        ⟨1, "", "5", "sid", String.mk (List.replicate 1025 'a'), false⟩) :=
  validation_aggregates_all_violations
    ⟨"", "", "", [], "", "", "", "", "", String.mk (List.replicate 4097 'a'),
      true, true, 0⟩
    ⟨1, "", "5", "sid", String.mk (List.replicate 1025 'a'), false⟩
    rfl rfl
    (by show 4096 < golen (String.mk (List.replicate 4097 'a'))
        rw [golen_replicate_a]
        omega)
    rfl
    (by show 1024 < golen (String.mk (List.replicate 1025 'a'))
        rw [golen_replicate_a]
        omega)

/-- C9: a `NewTransfer` with non-empty `CryptoAsset`, non-empty
`SpendID` of at most 64 characters and a `Comment` of at most 1024
characters validates successfully whatever its `Amount` is — transfer
validation never constrains `Amount` — while both check and invoice
validation reject an empty `Amount`. -/
theorem transfer_validation_ignores_amount (nt : NewTransfer)
    (h1 : golen nt.CryptoAsset ≠ 0) (h2 : golen nt.SpendID ≠ 0)
    (h3 : golen nt.SpendID ≤ 64) (h4 : golen nt.Comment ≤ 1024) :
    validateNewTransfer nt = [] ∧
    (∀ nc : NewCheck, golen nc.Amount = 0 →
      "Amount cannot be empty" ∈ validateNewCheck nc) ∧
    (∀ inv : NewInvoice, golen inv.Amount = 0 →
      "Amount cannot be empty" ∈ validateNewInvoice inv) := by
  refine ⟨?_, ?_, ?_⟩
  · unfold validateNewTransfer
    simp [h1, h2, Nat.not_lt.mpr h3, Nat.not_lt.mpr h4]
  · intro nc h
    simp only [validateNewCheck, List.append_assoc]
    exact List.mem_append_right _ (by rw [if_pos h]; exact List.mem_singleton_self _)
  · intro inv h
    simp only [validateNewInvoice, List.append_assoc]
    refine List.mem_append_right _ (List.mem_append_right _ (List.mem_append_right _
      (List.mem_append_right _ (List.mem_append_left _ ?_))))
    rw [if_pos h]
    exact List.mem_singleton_self _

/-- Concrete instantiation for C9: the transfer with empty `Amount`
passes, the check and invoice with empty `Amount` are rejected. -/
theorem transfer_validation_ignores_amount_witness :
    validateNewTransfer ⟨1, "TON", "", "sid", "", false⟩ = [] ∧
    "Amount cannot be empty" ∈ validateNewCheck ⟨"TON", "", 0, ""⟩ ∧
    "Amount cannot be empty" ∈ validateNewInvoice
      ⟨"crypto", "TON", "", [], "", "", "", "", "", "", true, true, 0⟩ :=
  ⟨(transfer_validation_ignores_amount ⟨1, "TON", "", "sid", "", false⟩
      (by decide) (by decide) (by decide) (by decide)).1,
   (transfer_validation_ignores_amount ⟨1, "TON", "", "sid", "", false⟩
      (by decide) (by decide) (by decide) (by decide)).2.1 ⟨"TON", "", 0, ""⟩ rfl,
   (transfer_validation_ignores_amount ⟨1, "TON", "", "sid", "", false⟩
      (by decide) (by decide) (by decide) (by decide)).2.2
     ⟨"crypto", "TON", "", [], "", "", "", "", "", "", true, true, 0⟩ rfl⟩

/-- C7: for each of the three option kinds, `Offset = -1` makes the
corresponding Get operation return the aggregated validation error — one
of whose messages is the offset constraint — with the zero result, no
serialized request body, and zero transport invocations. -/
theorem offset_validation_short_circuits
    (dInv : EnvDecoder InvoiceItems) (dCk : EnvDecoder CheckItems)
    (dTr : EnvDecoder TransferItems) (t : Transport) (endpoint : String)
    (inop : InvoiceOptions) (ckops : CheckOptions) (trops : TransferOptions)
    (h1 : inop.Offset = -1) (h2 : ckops.Offset = -1) (h3 : trops.Offset = -1) :
    (∃ msgs, GetInvoices dInv t endpoint inop =
        ⟨[], some (OpError.validation msgs), none, 0⟩ ∧
      "Offset cannot be less than 0" ∈ msgs) ∧
    (∃ msgs, GetChecks dCk t endpoint ckops =
        ⟨[], some (OpError.validation msgs), none, 0⟩ ∧
      "Offset cannot be less than 0" ∈ msgs) ∧
    (∃ msgs, GetTransfers dTr t endpoint trops =
        ⟨[], some (OpError.validation msgs), none, 0⟩ ∧
      "Offset cannot be less than 0" ∈ msgs) := by
  refine ⟨?_, ?_, ?_⟩
  · have hoff : inop.Offset < 0 := by
      rw [h1]
      decide
    have hm : "Offset cannot be less than 0" ∈ validateInvoiceOptions inop := by
      simp only [validateInvoiceOptions, List.append_assoc]
      exact List.mem_append_left _ (by rw [if_pos hoff]; exact List.mem_singleton_self _)
    rcases hl : validateInvoiceOptions inop with _ | ⟨e, es⟩
    · rw [hl] at hm
      simp at hm
    · exact ⟨e :: es, by simp [GetInvoices, hl], hl ▸ hm⟩
  · have hoff : ckops.Offset < 0 := by
      rw [h2]
      decide
    have hm : "Offset cannot be less than 0" ∈ validateCheckOptions ckops := by
      simp only [validateCheckOptions, List.append_assoc]
      exact List.mem_append_left _ (by rw [if_pos hoff]; exact List.mem_singleton_self _)
    rcases hl : validateCheckOptions ckops with _ | ⟨e, es⟩
    · rw [hl] at hm
      simp at hm
    · exact ⟨e :: es, by simp [GetChecks, hl], hl ▸ hm⟩
  · have hoff : trops.Offset < 0 := by
      rw [h3]
      decide
    have hm : "Offset cannot be less than 0" ∈ validateTransferOptions trops := by
      simp only [validateTransferOptions, List.append_assoc]
      exact List.mem_append_right _ (List.mem_append_left _
        (by rw [if_pos hoff]; exact List.mem_singleton_self _))
    rcases hl : validateTransferOptions trops with _ | ⟨e, es⟩
    · rw [hl] at hm
      simp at hm
    · exact ⟨e :: es, by simp [GetTransfers, hl], hl ▸ hm⟩

/-- Concrete instantiation for C7 on all three Get operations. -/
theorem offset_validation_short_circuits_witness :
    (∃ msgs, GetInvoices (fun _ => Except.error "down") (fun _ _ _ => Except.error "down")
        "ep" ⟨"", "", [], "", -1, 0⟩ = ⟨[], some (OpError.validation msgs), none, 0⟩ ∧
      "Offset cannot be less than 0" ∈ msgs) ∧
    (∃ msgs, GetChecks (fun _ => Except.error "down") (fun _ _ _ => Except.error "down")
        "ep" ⟨"", [], "", -1, 0⟩ = ⟨[], some (OpError.validation msgs), none, 0⟩ ∧
      "Offset cannot be less than 0" ∈ msgs) ∧
    (∃ msgs, GetTransfers (fun _ => Except.error "down") (fun _ _ _ => Except.error "down")
        "ep" ⟨"", [], "", -1, 0⟩ = ⟨[], some (OpError.validation msgs), none, 0⟩ ∧
      "Offset cannot be less than 0" ∈ msgs) :=
  offset_validation_short_circuits (fun _ => Except.error "down")
    (fun _ => Except.error "down") (fun _ => Except.error "down")
    (fun _ _ _ => Except.error "down") "ep"
    ⟨"", "", [], "", -1, 0⟩ ⟨"", [], "", -1, 0⟩ ⟨"", [], "", -1, 0⟩ rfl rfl rfl

/-- C5: for every API operation of the client, once the transport
returns bytes whose envelope decodes, an envelope with `ok = false`
makes the operation return the envelope's raw `error` payload verbatim
inside the API error together with the zero value of the result type,
and an envelope with `ok = true` makes it return the typed `result`
(unwrapped from the `{items: [...]}` carrier for the list operations)
with no error. -/
theorem envelope_dispatch (t : Transport) (endpoint body : String)
    (ht : ∀ (m u : String) (b : Option JObj), t m u b = Except.ok body) :
    (∀ (d : EnvDecoder String) (r : response String), d body = Except.ok r →
      (r.Ok = false → GetMe d t endpoint = ⟨"", some (OpError.api r.Error), none, 1⟩) ∧
      (r.Ok = true → GetMe d t endpoint = ⟨r.Result, none, none, 1⟩)) ∧
    (∀ (d : EnvDecoder Invoice) (r : response Invoice) (in' : NewInvoice),
      validateNewInvoice in' = [] → d body = Except.ok r →
      (r.Ok = false → CreateInvoice d t endpoint in' =
          ⟨Invoice.zero, some (OpError.api r.Error), some (marshalNewInvoice in'), 1⟩) ∧
      (r.Ok = true → CreateInvoice d t endpoint in' =
          ⟨r.Result, none, some (marshalNewInvoice in'), 1⟩)) ∧
    (∀ (d : EnvDecoder Bool) (r : response Bool) (id : Int), d body = Except.ok r →
      (r.Ok = false → DeleteInvoice d t endpoint id =
          ⟨false, some (OpError.api r.Error), some (marshalDeleteInvoice id), 1⟩) ∧
      (r.Ok = true → DeleteInvoice d t endpoint id =
          ⟨r.Result, none, some (marshalDeleteInvoice id), 1⟩)) ∧
    (∀ (d : EnvDecoder InvoiceItems) (r : response InvoiceItems) (inop : InvoiceOptions),
      validateInvoiceOptions inop = [] → d body = Except.ok r →
      (r.Ok = false → GetInvoices d t endpoint inop =
          ⟨[], some (OpError.api r.Error), some (marshalInvoiceOptions inop), 1⟩) ∧
      (r.Ok = true → GetInvoices d t endpoint inop =
          ⟨r.Result.Items, none, some (marshalInvoiceOptions inop), 1⟩)) ∧
    (∀ (d : EnvDecoder Check) (r : response Check) (nc : NewCheck),
      validateNewCheck nc = [] → d body = Except.ok r →
      (r.Ok = false → CreateCheck d t endpoint nc =
          ⟨Check.zero, some (OpError.api r.Error), some (marshalNewCheck nc), 1⟩) ∧
      (r.Ok = true → CreateCheck d t endpoint nc =
          ⟨r.Result, none, some (marshalNewCheck nc), 1⟩)) ∧
    (∀ (d : EnvDecoder Bool) (r : response Bool) (id : Int), d body = Except.ok r →
      (r.Ok = false → DeleteCheck d t endpoint id =
          ⟨false, some (OpError.api r.Error), some (marshalDeleteCheck id), 1⟩) ∧
      (r.Ok = true → DeleteCheck d t endpoint id =
          ⟨r.Result, none, some (marshalDeleteCheck id), 1⟩)) ∧
    (∀ (d : EnvDecoder CheckItems) (r : response CheckItems) (ckops : CheckOptions),
      validateCheckOptions ckops = [] → d body = Except.ok r →
      (r.Ok = false → GetChecks d t endpoint ckops =
          ⟨[], some (OpError.api r.Error), some (marshalCheckOptions ckops), 1⟩) ∧
      (r.Ok = true → GetChecks d t endpoint ckops =
          ⟨r.Result.Items, none, some (marshalCheckOptions ckops), 1⟩)) ∧
    (∀ (d : EnvDecoder Transfer) (r : response Transfer) (nt : NewTransfer),
      validateNewTransfer nt = [] → d body = Except.ok r →
      (r.Ok = false → CreateTransfer d t endpoint nt =
          ⟨Transfer.zero, some (OpError.api r.Error), some (marshalNewTransfer nt), 1⟩) ∧
      (r.Ok = true → CreateTransfer d t endpoint nt =
          ⟨r.Result, none, some (marshalNewTransfer nt), 1⟩)) ∧
    (∀ (d : EnvDecoder TransferItems) (r : response TransferItems)
        (trops : TransferOptions),
      validateTransferOptions trops = [] → d body = Except.ok r →
      (r.Ok = false → GetTransfers d t endpoint trops =
          ⟨[], some (OpError.api r.Error), some (marshalTransferOptions trops), 1⟩) ∧
      (r.Ok = true → GetTransfers d t endpoint trops =
          ⟨r.Result.Items, none, some (marshalTransferOptions trops), 1⟩)) ∧
    (∀ (d : EnvDecoder (List Balance)) (r : response (List Balance)),
      d body = Except.ok r →
      (r.Ok = false → GetBalance d t endpoint =
          ⟨[], some (OpError.api r.Error), none, 1⟩) ∧
      (r.Ok = true → GetBalance d t endpoint = ⟨r.Result, none, none, 1⟩)) ∧
    (∀ (d : EnvDecoder (List ExchangeRate)) (r : response (List ExchangeRate)),
      d body = Except.ok r →
      (r.Ok = false → GetExchangeRates d t endpoint =
          ⟨[], some (OpError.api r.Error), none, 1⟩) ∧
      (r.Ok = true → GetExchangeRates d t endpoint = ⟨r.Result, none, none, 1⟩)) ∧
    (∀ (d : EnvDecoder AppStats) (r : response AppStats) (asops : AppStatsOptions),
      d body = Except.ok r →
      (r.Ok = false → GetAppStats d t endpoint asops =
          ⟨AppStats.zero, some (OpError.api r.Error),
            some (marshalAppStatsOptions asops), 1⟩) ∧
      (r.Ok = true → GetAppStats d t endpoint asops =
          ⟨r.Result, none, some (marshalAppStatsOptions asops), 1⟩)) := by
  refine ⟨?_, ?_, ?_, ?_, ?_, ?_, ?_, ?_, ?_, ?_, ?_, ?_⟩
  · intro d r hd
    constructor <;> intro hOk <;> simp [GetMe, ht, hd, hOk]
  · intro d r in' hv hd
    constructor <;> intro hOk <;> simp [CreateInvoice, ht, hv, hd, hOk]
  · intro d r id hd
    constructor <;> intro hOk <;> simp [DeleteInvoice, ht, hd, hOk]
  · intro d r inop hv hd
    constructor <;> intro hOk <;> simp [GetInvoices, ht, hv, hd, hOk]
  · intro d r nc hv hd
    constructor <;> intro hOk <;> simp [CreateCheck, ht, hv, hd, hOk]
  · intro d r id hd
    constructor <;> intro hOk <;> simp [DeleteCheck, ht, hd, hOk]
  · intro d r ckops hv hd
    constructor <;> intro hOk <;> simp [GetChecks, ht, hv, hd, hOk]
  · intro d r nt hv hd
    constructor <;> intro hOk <;> simp [CreateTransfer, ht, hv, hd, hOk]
  · intro d r trops hv hd
    constructor <;> intro hOk <;> simp [GetTransfers, ht, hv, hd, hOk]
  · intro d r hd
    constructor <;> intro hOk <;> simp [GetBalance, ht, hd, hOk]
  · intro d r hd
    constructor <;> intro hOk <;> simp [GetExchangeRates, ht, hd, hOk]
  · intro d r asops hd
    constructor <;> intro hOk <;> simp [GetAppStats, ht, hd, hOk]

/-- Concrete instantiation for C5 on `GetMe`, in both envelope states. -/
theorem envelope_dispatch_witness :
    GetMe (fun _ => Except.ok ⟨false, "upstream failure", "R"⟩)
      (fun _ _ _ => Except.ok "B") "ep" =
      ⟨"", some (OpError.api "upstream failure"), none, 1⟩ ∧
    GetMe (fun _ => Except.ok ⟨true, "", "R"⟩) (fun _ _ _ => Except.ok "B") "ep" =
      ⟨"R", none, none, 1⟩ :=
  ⟨((envelope_dispatch (fun _ _ _ => Except.ok "B") "ep" "B"
      (fun _ _ _ => rfl)).1 (fun _ => Except.ok ⟨false, "upstream failure", "R"⟩)
      ⟨false, "upstream failure", "R"⟩ rfl).1 rfl,
   ((envelope_dispatch (fun _ _ _ => Except.ok "B") "ep" "B"
      (fun _ _ _ => rfl)).1 (fun _ => Except.ok ⟨true, "", "R"⟩)
      ⟨true, "", "R"⟩ rfl).2 rfl⟩

end Cryptobot
